import Mathlib

/-!
Verification development for the DreamworldSolutions fetch wrapper.

The repository contains two fetch implementations:
* src/fetch.js (embedded below in namespace FetchJs): redux-tracked variant whose
  retryability classifier is reduced to the explicit option (the status-based rules
  are commented out in the source);
* src/unnamed/part_001 (embedded in namespace Part001): upload-progress variant whose
  classifier checks 2xx first, then the explicit override, then status 503.

Both delegate the retry loop to the @lifeomic/attempt library; its retry engine is
embedded in namespace Attempt, with the network transport abstracted as an oracle
from attempt numbers to results.  JavaScript objects are modelled by records whose
optional fields are Option values (none = the field is absent / undefined), and JS
truthiness tests on status fields are spelled out explicitly.
-/

/-- A JavaScript value flowing through the retry machinery: either a Response-like
object (a present numeric status) or a thrown error object (status absent).  The
source only ever inspects the fields status and type on these values; name records
the error name (for example AbortError) and is never inspected by the code. -/
structure Res where
  status : Option Int := none
  type : Option String := none
  name : Option String := none
  deriving DecidableEq

/-- JS truthiness of res.status: present and nonzero. -/
def Res.statusTruthy (r : Res) : Bool :=
  match r.status with
  | some s => !(s == 0)
  | none => false

/-- The test res.status >= 200 && res.status <= 299 (false when status is absent,
since a comparison against undefined is false in JS). -/
def Res.statusIn2xx (r : Res) : Bool :=
  match r.status with
  | some s => decide (200 ≤ s) && decide (s ≤ 299)
  | none => false

/-- The request options object.  Boolean-ish optional fields are Option Bool
(none = absent); read, bodyIsFormData and onUploadProgress model the truthiness or
presence of the corresponding fields. -/
structure Options where
  method : Option String := none
  retryable : Option Bool := none
  read : Bool := false
  requestId : Option String := none
  requestType : Option String := none
  bodyIsFormData : Bool := false
  onUploadProgress : Bool := false
  deriving DecidableEq

/-- Result of one transport exchange: a response was received, or a value was
thrown (network failure, abort, timeout). -/
inductive TransportResult where
  | resp (r : Res)
  | thrown (e : Res)
  deriving DecidableEq

/-- Result of one invocation of the function passed to the attempt library:
it returned a value or threw one. -/
inductive BodyResult where
  | ok (r : Res)
  | err (e : Res)
  deriving DecidableEq

/-- The thrown value of a BodyResult (junk projection on ok, used only under the
hypothesis that the result is err). -/
def BodyResult.errOr : BodyResult → Res
  | .ok r => r
  | .err e => e

/-- Terminal result of a retry loop: the promise resolved with a value or
rejected with the last thrown value. -/
inductive RetryOutcome where
  | success (r : Res)
  | failure (e : Res)
  deriving DecidableEq

/-- Observable trace of one retry-loop run: how many attempts were made, the
sleeps performed between attempts (in milliseconds, in order), and the result. -/
structure RetryTrace where
  attempts : Nat
  delays : List Nat
  result : RetryOutcome
  deriving DecidableEq

namespace Attempt

/-- The @lifeomic/attempt retry engine for a positive maxAttempts, as configured by
this repository (no beforeAttempt, no timeout, no jitter, no initialDelay).  The
arguments are the attempt body as an oracle over the 0-based attempt number, the
handleError decision (true = return normally and retry, false = context.abort()),
the delay schedule, the starting attempt number, and attemptsRemaining.  Each
iteration decrements attemptsRemaining, runs the body, and on a thrown value either
rejects (abort, or attemptsRemaining exhausted) or sleeps and recurses.  The
remaining = 0 case is unreachable from the sources, which only call this with
maxAttempts at least 1 (maxAttempts = 0 selects the unbounded engine runFuel). -/
def run (body : Nat → BodyResult) (shouldRetry : Res → Bool) (delayFn : Nat → Nat) :
    Nat → Nat → RetryTrace
  | _, 0 => ⟨0, [], .failure ⟨none, none, none⟩⟩
  | a, r + 1 =>
    match body a with
    | .ok res => ⟨1, [], .success res⟩
    | .err e =>
      if shouldRetry e then
        if r = 0 then ⟨1, [], .failure e⟩
        else
          let t := run body shouldRetry delayFn (a + 1) r
          ⟨t.attempts + 1, delayFn a :: t.delays, t.result⟩
      else ⟨1, [], .failure e⟩

/-- The same engine with maxAttempts = 0 (unlimited attempts), observed through a
fuel bound: none means the loop is still running after consuming the fuel. -/
def runFuel (body : Nat → BodyResult) (shouldRetry : Res → Bool) (delayFn : Nat → Nat) :
    Nat → Nat → Option RetryTrace
  | _, 0 => none
  | a, fuel + 1 =>
    match body a with
    | .ok res => some ⟨1, [], .success res⟩
    | .err e =>
      if shouldRetry e then
        match runFuel body shouldRetry delayFn (a + 1) fuel with
        | none => none
        | some t => some ⟨t.attempts + 1, delayFn a :: t.delays, t.result⟩
      else some ⟨1, [], .failure e⟩

/-- The default delay schedule with factor 2 and maxDelay 5000, as configured in
_retryFetch: the sleep after the (a+1)-st failed attempt (a is 0-based). -/
def expDelay (base : Nat) (a : Nat) : Nat := min (base * 2 ^ a) 5000

end Attempt

namespace FetchJs

/-- The classifier of src/fetch.js: the status-based rules are commented out in the
source and the function returns the double negation of options.retryable. -/
def _isRetryableError (res : Res) (options : Options) : Bool :=
  options.retryable.getD false

/-- The decision taken by the handleError callback of _retryFetch in src/fetch.js:
retryable errors are retried (the callback returns), anything else aborts the loop. -/
def handleError (err : Res) (options : Options) : Bool :=
  _isRetryableError err options

/-- The body of the function passed to retry by _retryFetch in src/fetch.js: perform
one fetch; a thrown value propagates, a response classified retryable is thrown,
any other response is returned. -/
def retryFetchBody (tr : Nat → TransportResult) (options : Options) (k : Nat) : BodyResult :=
  match tr k with
  | .thrown e => .err e
  | .resp r => if _isRetryableError r options then .err r else .ok r

/-- _retryFetch of src/fetch.js: the attempt engine over retryFetchBody with the
classifier as the handleError decision, delay with factor 2 capped at 5000 ms. -/
def _retryFetch (tr : Nat → TransportResult) (options : Options)
    (maxAttempts delay : Nat) : RetryTrace :=
  Attempt.run (retryFetchBody tr options) (fun e => handleError e options)
    (Attempt.expDelay delay) 0 maxAttempts

end FetchJs

namespace Part001

/-- The classifier of src/unnamed/part_001: a 2xx status is never retryable; else
the explicit option wins when present; else a present, truthy status equal to 503
is retryable. -/
def _isRetryableError (res : Res) (options : Options) : Bool :=
  if res.statusIn2xx then false
  else
    match options.retryable with
    | some b => b
    | none =>
      match res.status with
      | some s => !(s == 0) && (s == 503)
      | none => false

/-- The decision taken by the handleError callback of _retryFetch in part_001. -/
def handleError (err : Res) (options : Options) : Bool :=
  _isRetryableError err options

/-- The body of the function passed to retry by _retryFetch in part_001 (the choice
between _uploadWithProgress and plain fetch is abstracted into the transport
oracle; both produce a response or throw). -/
def retryFetchBody (tr : Nat → TransportResult) (options : Options) (k : Nat) : BodyResult :=
  match tr k with
  | .thrown e => .err e
  | .resp r => if _isRetryableError r options then .err r else .ok r

/-- _retryFetch of part_001. -/
def _retryFetch (tr : Nat → TransportResult) (options : Options)
    (maxAttempts delay : Nat) : RetryTrace :=
  Attempt.run (retryFetchBody tr options) (fun e => handleError e options)
    (Attempt.expDelay delay) 0 maxAttempts

end Part001

/-- The terminal step of a default export: the resolved value is handed to the
caller as a fulfilled promise, a delegated value triggers _retryOnNetworkError. -/
inductive OrchStep where
  | resolved (r : Res)
  | delegated (e : Res)
  deriving DecidableEq

namespace FetchJs

/-- The catch clause of the default export of src/fetch.js applied to the result of
_retryFetch: a fulfilled result is returned; a rejection with a falsy status is
delegated to _retryOnNetworkError; any other rejection value is returned (the
promise fulfills with it). -/
def defaultStep : RetryOutcome → OrchStep
  | .success r => .resolved r
  | .failure e => if e.statusTruthy then .resolved e else .delegated e

/-- Whether a terminal failure of the bounded scheduler makes the default export of
src/fetch.js invoke _retryOnNetworkError. -/
def delegatesToNetwork (e : Res) : Bool :=
  match defaultStep (.failure e) with
  | .delegated _ => true
  | .resolved _ => false

/-- The mutation the default export of src/fetch.js performs on the caller options
when a redux store is configured: it assigns options.requestId a fresh id and
options.requestType the read/write classification (options.method || GET compared
with GET, or the read flag). -/
def trackOptions (generatedId : String) (o : Options) : Options :=
  let method :=
    match o.method with
    | none => "GET"
    | some m => if m = "" then "GET" else m
  { o with
      requestId := some generatedId,
      requestType := some (if o.read || method == "GET" then "read" else "write") }

/-- The options object the schedulers of src/fetch.js receive from the default
export: mutated in place by trackOptions when a store is configured, the very same
object otherwise. -/
def optionsUsed (storeConfigured : Bool) (generatedId : String) (o : Options) : Options :=
  if storeConfigured then trackOptions generatedId o else o

/-- The options record _retryFetch of src/fetch.js passes to the global fetch: a
shallow copy of options with the retryable key deleted. -/
def retryFetchFetchArg (o : Options) : Options :=
  { o with retryable := none }

/-- The options record _retryOnNetworkError of src/fetch.js passes to the global
fetch: the source builds the stripped copy opts but the fetch call on line 95 passes
the original options object. -/
def retryOnNetworkFetchArg (o : Options) : Options :=
  o

/-- The body of the function passed to retry by _retryOnNetworkError in
src/fetch.js, at a given cycle: one fetch (firstFetch); a response classified
retryable starts a full _retryFetch run (whose transport is innerTr cycle); the
catch clause rethrows values with a falsy status (so the outer loop retries) and
returns any other caught value. -/
def networkCycleBody (o : Options) (firstFetch : Nat → TransportResult)
    (innerTr : Nat → Nat → TransportResult) (maxAttempts delay : Nat)
    (cycle : Nat) : BodyResult :=
  match firstFetch cycle with
  | .thrown e => if e.statusTruthy then .ok e else .err e
  | .resp r =>
    if _isRetryableError r o then
      match (_retryFetch (innerTr cycle) o maxAttempts delay).result with
      | .success r2 => .ok r2
      | .failure e => if e.statusTruthy then .ok e else .err e
    else .ok r

/-- _retryOnNetworkError of src/fetch.js: the attempt engine over networkCycleBody
with a fixed 2000 ms delay and no handleError callback (every thrown value is
retried); maxAttempts is 1 when offlineRetry is false and 0 (unlimited, observed
through fuel) when offlineRetry is true. -/
def _retryOnNetworkError (o : Options) (firstFetch : Nat → TransportResult)
    (innerTr : Nat → Nat → TransportResult) (maxAttempts delay : Nat)
    (offlineRetry : Bool) (fuel : Nat) : Option RetryTrace :=
  if offlineRetry then
    Attempt.runFuel (networkCycleBody o firstFetch innerTr maxAttempts delay)
      (fun _ => true) (fun _ => 2000) 0 fuel
  else
    some (Attempt.run (networkCycleBody o firstFetch innerTr maxAttempts delay)
      (fun _ => true) (fun _ => 2000) 0 1)

end FetchJs

namespace Part001

/-- The catch clause of the default export of part_001: it delegates to
_retryOnNetworkError only when the rejection value has a falsy status and its type
field is not the string cors. -/
def defaultStep : RetryOutcome → OrchStep
  | .success r => .resolved r
  | .failure e =>
    if !e.statusTruthy && !(e.type == some "cors") then .delegated e else .resolved e

/-- Whether a terminal failure of the bounded scheduler makes the default export of
part_001 invoke _retryOnNetworkError. -/
def delegatesToNetwork (e : Res) : Bool :=
  match defaultStep (.failure e) with
  | .delegated _ => true
  | .resolved _ => false

/-- The options record _retryFetch of part_001 passes to its transport, mirroring
lines 112-126: opts is a copy without retryable; a FormData body with a progress
callback goes to _uploadWithProgress with opts, otherwise fetch receives a further
copy without onUploadProgress. -/
def retryFetchFetchArg (o : Options) : Options :=
  let opts : Options := { o with retryable := none }
  if opts.bodyIsFormData && opts.onUploadProgress then opts
  else { opts with onUploadProgress := false }

/-- The options record _retryOnNetworkError of part_001 passes to its transport,
mirroring lines 161-177 (same stripping as its _retryFetch). -/
def retryOnNetworkFetchArg (o : Options) : Options :=
  let opts : Options := { o with retryable := none }
  if opts.bodyIsFormData && opts.onUploadProgress then opts
  else { opts with onUploadProgress := false }

/-- The argument delivered to the caller-supplied onUploadProgress sink. -/
structure ProgressArg where
  sentBytes : Nat
  totalBytes : Nat
  percentage : ℚ
  speed : ℚ
  deriving DecidableEq

/-- An XMLHttpRequest upload progress event. -/
structure XhrEvent where
  lengthComputable : Bool := true
  loaded : Nat := 0
  total : Nat := 0
  deriving DecidableEq

/-- The upload progress listener of _uploadWithProgress (part_001 lines 37-53):
events without computable length are ignored; otherwise the sink receives the sent
and total byte counts, their ratio (0 when total is 0), and a speed hardcoded to 0
(the source carries a TODO noting speed calculation is unimplemented). -/
def progressListener (e : XhrEvent) : Option ProgressArg :=
  if e.lengthComputable then
    some { sentBytes := e.loaded, totalBytes := e.total,
           percentage := if e.total > 0 then (e.loaded : ℚ) / (e.total : ℚ) else 0,
           speed := 0 }
  else none

end Part001

/-- One sample of the speed estimator described by the specification. -/
structure SpeedSample where
  timestampMs : Nat
  sentBytes : Nat
  deriving DecidableEq

/-- Modelled from the spec: the Speed Estimator of section 4.2 is absent from the
source (the progress listener in part_001 hardcodes speed 0 with a TODO).  Appends
a sample to the capacity-10 ring, evicting the oldest first when full, and returns
the new ring with the speed (newest.sentBytes - oldest.sentBytes) divided by the
elapsed seconds, clamped to at least 0, with 0 while fewer than two samples exist
or the elapsed time is 0. -/
def specSpeedRecord (ring : List SpeedSample) (s : SpeedSample) : List SpeedSample × ℚ :=
  let ring1 := if 10 ≤ ring.length then ring.drop 1 else ring
  let ring2 := ring1 ++ [s]
  let speed : ℚ :=
    if ring2.length < 2 then 0
    else
      let oldest := ring2.headD ⟨0, 0⟩
      let elapsed : ℚ := ((s.timestampMs : ℚ) - (oldest.timestampMs : ℚ)) / 1000
      if elapsed = 0 then 0
      else max 0 (((s.sentBytes : ℚ) - (oldest.sentBytes : ℚ)) / elapsed)
  (ring2, speed)

/-- A redux action of src/actions.js. -/
structure FetchAction where
  type : String
  requestId : String
  requestType : String
  deriving DecidableEq

namespace Actions

/-- Action type dispatched whenever a fetch request is sent. -/
def REQUEST : String := "FETCH_REQUEST_START"

/-- Action type dispatched whenever a request succeeds. -/
def REQUEST_SUCCEED : String := "FETCH_REQUEST_SUCCEED"

/-- Action type dispatched whenever a request fails due to a server error. -/
def REQUEST_FAILED : String := "FETCH_REQUEST_FAILED"

/-- The request action creator. -/
def request (requestId requestType : String) : FetchAction :=
  ⟨REQUEST, requestId, requestType⟩

/-- The requestSucceed action creator. -/
def requestSucceed (requestId requestType : String) : FetchAction :=
  ⟨REQUEST_SUCCEED, requestId, requestType⟩

/-- The requestFailed action creator. -/
def requestFailed (requestId requestType : String) : FetchAction :=
  ⟨REQUEST_FAILED, requestId, requestType⟩

end Actions

/-- The fetch-requests state slice: two ledgers from request id to start timestamp.
A lookup of none models an id that is absent from the ledger object (the external
ReduxUtils.replace helper removes a path when the replacement value is undefined,
and reading an absent property yields undefined either way). -/
structure FetchRequestsState where
  pendingReads : String → Option Nat
  pendingWrites : String → Option Nat

/-- The initial, empty state slice. -/
def emptyState : FetchRequestsState := ⟨fun _ => none, fun _ => none⟩

/-- Immutable single-key replacement in a ledger, as performed by
ReduxUtils.replace on the path requestType.requestId. -/
def mapReplace (m : String → Option Nat) (id : String) (v : Option Nat) :
    String → Option Nat :=
  fun k => if k = id then v else m k

namespace Reducer

/-- The reducer of src/unnamed/part_000 (reducer.js): a REQUEST action records the
current time under the request id in pendingReads when the requestType is read and
in pendingWrites otherwise; REQUEST_SUCCEED and REQUEST_FAILED erase that entry;
anything else returns the state unchanged.  Date.now() is passed in as now. -/
def reducer (state : FetchRequestsState) (action : FetchAction) (now : Nat) :
    FetchRequestsState :=
  let isRead := action.requestType = "read"
  if action.type = Actions.REQUEST then
    if isRead then
      { state with pendingReads := mapReplace state.pendingReads action.requestId (some now) }
    else
      { state with pendingWrites := mapReplace state.pendingWrites action.requestId (some now) }
  else if action.type = Actions.REQUEST_SUCCEED ∨ action.type = Actions.REQUEST_FAILED then
    if isRead then
      { state with pendingReads := mapReplace state.pendingReads action.requestId none }
    else
      { state with pendingWrites := mapReplace state.pendingWrites action.requestId none }
  else state

end Reducer

namespace Selectors

/-- The pendingWrites selector of src/selectors.js. -/
def pendingWrites (state : FetchRequestsState) : String → Option Nat :=
  state.pendingWrites

/-- The pendingReads selector of src/selectors.js. -/
def pendingReads (state : FetchRequestsState) : String → Option Nat :=
  state.pendingReads

end Selectors

/-- A 503 response value used by several concrete instantiations below. -/
def res503 : Res := { status := some 503 }

/-- A 200 response value. -/
def res200 : Res := { status := some 200 }

/-- A thrown network-level failure: no status was obtainable. -/
def networkError : Res := { status := none, type := some "network" }

/-- The value fetch rejects with when the abort signal fires: a DOMException named
AbortError, carrying neither a status nor a type field. -/
def abortError : Res := { name := some "AbortError" }

/-- Options with an explicit retryable true override. -/
def optsRetryTrue : Options := { retryable := some true }

/-- A transport whose every attempt yields a 503 response. -/
def tr503 : Nat → TransportResult := fun _ => .resp res503

/-! ## Engine lemmas -/

theorem Res.statusTruthy_of_none {e : Res} (h : e.status = none) :
    e.statusTruthy = false := by
  simp [Res.statusTruthy, h]

theorem Attempt.run_all_err (body : Nat → BodyResult) (sr : Res → Bool) (df : Nat → Nat)
    (h : ∀ k, ∃ e, body k = .err e ∧ sr e = true) :
    ∀ (m a : Nat), Attempt.run body sr df a (m + 1) =
      ⟨m + 1, (List.range m).map (fun i => df (a + i)), .failure ((body (a + m)).errOr)⟩ := by
  intro m
  induction m with
  | zero =>
    intro a
    obtain ⟨e, hb, hs⟩ := h a
    simp [Attempt.run, hb, hs, BodyResult.errOr]
  | succ n ih =>
    intro a
    obtain ⟨e, hb, hs⟩ := h a
    have hrec := ih (a + 1)
    rw [Attempt.run]
    simp only [hb, hs, if_true, Nat.succ_ne_zero, if_false, hrec]
    refine congrArg₂ (RetryTrace.mk (n + 1 + 1)) ?_ ?_
    · rw [List.range_succ_eq_map, List.map_cons, List.map_map]
      refine congrArg₂ List.cons (by simp) (List.map_congr_left ?_)
      intro i _
      simp only [Function.comp_apply]
      congr 1
      omega
    · have heq : a + 1 + n = a + (n + 1) := by omega
      rw [heq]

theorem Attempt.runFuel_all_err (body : Nat → BodyResult) (sr : Res → Bool)
    (df : Nat → Nat) (h : ∀ k, ∃ e, body k = .err e ∧ sr e = true) :
    ∀ (fuel a : Nat), Attempt.runFuel body sr df a fuel = none := by
  intro fuel
  induction fuel with
  | zero => intro a; rfl
  | succ n ih =>
    intro a
    obtain ⟨e, hb, hs⟩ := h a
    simp [Attempt.runFuel, hb, hs, ih (a + 1)]

theorem Attempt.runFuel_attempts_pos (body : Nat → BodyResult) (sr : Res → Bool)
    (df : Nat → Nat) :
    ∀ (fuel a : Nat) (t : RetryTrace),
      Attempt.runFuel body sr df a fuel = some t → 1 ≤ t.attempts := by
  intro fuel
  induction fuel with
  | zero => intro a t ht; exact absurd ht (by simp [Attempt.runFuel])
  | succ n ih =>
    intro a t ht
    rw [Attempt.runFuel] at ht
    rcases hb : body a with r | e <;> simp only [hb] at ht
    · rw [Option.some.injEq] at ht
      subst ht
      exact Nat.le_refl 1
    · rcases hs : sr e with _ | _ <;> simp [hs] at ht
      · subst ht
        exact Nat.le_refl 1
      · rcases hrec : Attempt.runFuel body sr df (a + 1) n with _ | t2 <;>
          simp [hrec] at ht
        subst ht
        simp

theorem Attempt.runFuel_const_delay (body : Nat → BodyResult) (sr : Res → Bool) (c : Nat) :
    ∀ (fuel a : Nat) (t : RetryTrace),
      Attempt.runFuel body sr (fun _ => c) a fuel = some t →
      t.delays = List.replicate (t.attempts - 1) c := by
  intro fuel
  induction fuel with
  | zero => intro a t ht; exact absurd ht (by simp [Attempt.runFuel])
  | succ n ih =>
    intro a t ht
    rw [Attempt.runFuel] at ht
    rcases hb : body a with r | e <;> simp only [hb] at ht
    · rw [Option.some.injEq] at ht
      subst ht
      simp
    · rcases hs : sr e with _ | _ <;> simp [hs] at ht
      · subst ht
        simp
      · rcases hrec : Attempt.runFuel body sr (fun _ => c) (a + 1) n with _ | t2 <;>
          simp [hrec] at ht
        have hpos := Attempt.runFuel_attempts_pos body sr (fun _ => c) n (a + 1) t2 hrec
        have hd := ih (a + 1) t2 hrec
        subst ht
        simp only [RetryTrace.mk.injEq] at *
        rw [hd]
        obtain ⟨k, hk⟩ : ∃ k, t2.attempts = k + 1 := ⟨t2.attempts - 1, by omega⟩
        rw [hk]
        simp [List.replicate_succ]


/-! ## Claim C1: retryability of 503 without an explicit override -/

/-- C1: for every response with HTTP status 503 and no explicit retryable override,
the part_001 classifier returns true, while the src/fetch.js classifier (whose
status rules are commented out) returns false.  The claim as frozen holds of
part_001 and of the README retry documentation, and is violated by src/fetch.js. -/
theorem c1_retry_503 (res : Res) (o : Options)
    (h5 : res.status = some 503) (ho : o.retryable = none) :
    Part001._isRetryableError res o = true ∧ FetchJs._isRetryableError res o = false := by
  constructor
  · simp [Part001._isRetryableError, Res.statusIn2xx, h5, ho]
  · simp [FetchJs._isRetryableError, ho]

/-- C1 witness: the concrete 503 response with empty options. -/
theorem c1_retry_503_witness :
    Part001._isRetryableError res503 {} = true ∧ FetchJs._isRetryableError res503 {} = false :=
  c1_retry_503 res503 {} rfl rfl

/-! ## Claim C2: bounded retry exhaustion -/

/-- C2 (amended): when every attempt of the src/fetch.js bounded scheduler yields a
failure its classifier deems retryable, _retryFetch makes exactly maxAttempts
attempts, sleeps between them the doubling delays capped at 5000 ms, and rejects
with the last thrown value; the default export catches that rejection and, when the
last value carries a truthy HTTP status, fulfills with it instead of rejecting. -/
theorem c2_bounded_retry (tr : Nat → TransportResult) (o : Options) (m d : Nat)
    (hm : 1 ≤ m)
    (h : ∀ k, ∃ e, FetchJs.retryFetchBody tr o k = .err e ∧
        FetchJs._isRetryableError e o = true) :
    (FetchJs._retryFetch tr o m d).attempts = m
    ∧ (FetchJs._retryFetch tr o m d).delays =
        (List.range (m - 1)).map (fun i => min (d * 2 ^ i) 5000)
    ∧ (FetchJs._retryFetch tr o m d).result =
        .failure ((FetchJs.retryFetchBody tr o (m - 1)).errOr)
    ∧ (((FetchJs.retryFetchBody tr o (m - 1)).errOr).statusTruthy = true →
        FetchJs.defaultStep (FetchJs._retryFetch tr o m d).result =
          .resolved ((FetchJs.retryFetchBody tr o (m - 1)).errOr)) := by
  rcases m with _ | n
  · omega
  · have hfet : FetchJs._retryFetch tr o (n + 1) d =
        ⟨n + 1, (List.range n).map (fun i => Attempt.expDelay d (0 + i)),
          .failure ((FetchJs.retryFetchBody tr o (0 + n)).errOr)⟩ :=
      Attempt.run_all_err (FetchJs.retryFetchBody tr o)
        (fun e => FetchJs.handleError e o) (Attempt.expDelay d)
        (fun k => h k) n 0
    refine ⟨by rw [hfet], ?_, ?_, ?_⟩
    · rw [hfet]
      simp [Attempt.expDelay]
    · rw [hfet]
      simp
    · intro hst
      rw [hfet]
      simp only [Nat.add_sub_cancel] at hst
      simp [FetchJs.defaultStep, hst]

/-- C2 witness: a transport answering 503 on every attempt, with an explicit
retryable override so that the src/fetch.js classifier retries, maxAttempts 3 and
base delay 200 ms. -/
theorem c2_bounded_retry_witness :
    (FetchJs._retryFetch tr503 optsRetryTrue 3 200).attempts = 3
    ∧ (FetchJs._retryFetch tr503 optsRetryTrue 3 200).delays = [200, 400]
    ∧ (FetchJs._retryFetch tr503 optsRetryTrue 3 200).result = .failure res503 := by
  have h := c2_bounded_retry tr503 optsRetryTrue 3 200 (by omega)
    (fun k => ⟨res503, rfl, rfl⟩)
  refine ⟨h.1, ?_, ?_⟩
  · rw [h.2.1]
    decide
  · rw [h.2.2.1]
    decide

/-- C2 counterexample: in the very scenario of the claim (every attempt a
retryable failure, here 503 with an explicit override), the overall call does not
reject: the default export fulfills with the last 503 response. -/
theorem c2_counterexample :
    (FetchJs._retryFetch tr503 optsRetryTrue 3 200).attempts = 3
    ∧ (FetchJs._retryFetch tr503 optsRetryTrue 3 200).delays = [200, 400]
    ∧ FetchJs.defaultStep (FetchJs._retryFetch tr503 optsRetryTrue 3 200).result =
        .resolved res503 := by decide

/-! ## Claim C3: 2xx responses are never retried -/

/-- C3: a response with a 2xx status is classified not-retryable by the part_001
classifier regardless of the retryable option, and its bounded scheduler resolves
with it on the first attempt; the src/fetch.js classifier instead returns the
explicit override even for 2xx statuses, so with retryable true a 200 response is
classified retryable (and thrown for retry), contradicting the README. -/
theorem c3_success_never_retried (res : Res) (o : Options) (s : Int)
    (hs : res.status = some s) (h2 : 200 ≤ s ∧ s ≤ 299) :
    Part001._isRetryableError res o = false
    ∧ (∀ (tr : Nat → TransportResult) (m d : Nat), tr 0 = .resp res →
        Part001._retryFetch tr o (m + 1) d = ⟨1, [], .success res⟩)
    ∧ FetchJs._isRetryableError res o = o.retryable.getD false
    ∧ FetchJs._isRetryableError res200 optsRetryTrue = true := by
  have h2xx : res.statusIn2xx = true := by
    simp [Res.statusIn2xx, hs, h2.1, h2.2]
  have hcls : Part001._isRetryableError res o = false := by
    simp [Part001._isRetryableError, h2xx]
  refine ⟨hcls, ?_, rfl, rfl⟩
  intro tr m d htr
  rw [Part001._retryFetch, Attempt.run]
  simp [Part001.retryFetchBody, htr, Part001.handleError, hcls]

/-- C3 witness: a 204 response with retryable true resolves immediately under the
part_001 scheduler. -/
theorem c3_success_never_retried_witness :
    Part001._isRetryableError ⟨some 204, none, none⟩ optsRetryTrue = false
    ∧ Part001._retryFetch (fun _ => .resp ⟨some 204, none, none⟩) optsRetryTrue 5 200 =
        ⟨1, [], .success ⟨some 204, none, none⟩⟩ := by
  have h := c3_success_never_retried ⟨some 204, none, none⟩ optsRetryTrue 204 rfl (by decide)
  exact ⟨h.1, h.2.1 (fun _ => .resp ⟨some 204, none, none⟩) 4 200 rfl⟩

/-! ## Claim C4: explicit override wins -/

/-- C4 counterexample: with the explicit override retryable true and status 200,
the part_001 classifier returns false, not the override value. -/
theorem c4_counterexample :
    Part001._isRetryableError res200 optsRetryTrue = false := by decide

/-- C4 (amended): with an explicit retryable override present, the src/fetch.js
classifier returns the override for every status, and the part_001 classifier
returns the override for every status outside 200-299 but false for 2xx statuses
regardless of the override. -/
theorem c4_override (res : Res) (o : Options) (b : Bool) (hb : o.retryable = some b) :
    FetchJs._isRetryableError res o = b
    ∧ (res.statusIn2xx = false → Part001._isRetryableError res o = b)
    ∧ (res.statusIn2xx = true → Part001._isRetryableError res o = false) := by
  refine ⟨by simp [FetchJs._isRetryableError, hb], ?_, ?_⟩
  · intro h2
    simp [Part001._isRetryableError, h2, hb]
  · intro h2
    simp [Part001._isRetryableError, h2]

/-- C4 witness: a 400 response with retryable true is classified retryable by both
classifiers. -/
theorem c4_override_witness :
    FetchJs._isRetryableError ⟨some 400, none, none⟩ optsRetryTrue = true
    ∧ Part001._isRetryableError ⟨some 400, none, none⟩ optsRetryTrue = true := by
  have h := c4_override ⟨some 400, none, none⟩ optsRetryTrue true rfl
  exact ⟨h.1, h.2.1 rfl⟩

/-! ## Claim C5: delegation to the network-failure scheduler -/

/-- C5 counterexample: a terminal failure with no status but type cors is surfaced
by the part_001 default export without invoking the network-failure scheduler,
although the claim demands delegation for every statusless terminal failure. -/
theorem c5_counterexample :
    (⟨none, some "cors", none⟩ : Res).status = none
    ∧ Part001.defaultStep (.failure ⟨none, some "cors", none⟩) =
        .resolved ⟨none, some "cors", none⟩ := by decide

/-- C5 (amended): the src/fetch.js default export delegates a terminal failure to
_retryOnNetworkError exactly when its status is absent or zero, while the part_001
default export additionally requires the failure type not to be cors; every other
terminal failure is surfaced without invoking the network-failure scheduler. -/
theorem c5_delegation (e : Res) :
    FetchJs.delegatesToNetwork e = !e.statusTruthy
    ∧ Part001.delegatesToNetwork e = (!e.statusTruthy && !(e.type == some "cors")) := by
  constructor
  · rcases h : e.statusTruthy <;>
      simp [FetchJs.delegatesToNetwork, FetchJs.defaultStep, h]
  · rcases h : e.statusTruthy <;> rcases h2 : (e.type == some "cors") <;>
      simp [Part001.delegatesToNetwork, Part001.defaultStep, h, h2]

/-! ## Claim C6: the network-failure retry scheduler -/

/-- C6 (amended): with a transport that throws a statusless failure on every cycle,
the src/fetch.js network-failure scheduler surfaces the failure after exactly one
cycle when offlineRetry is false, and with offlineRetry true it never terminates on
its own (none for every fuel); any terminating run sleeps exactly 2000 ms between
cycles, and a first cycle that obtains a non-retryable response resolves at once.
An abort observed during a cycle is a statusless rejection and is retried like any
network failure, so cancellation does not stop the loop. -/
theorem c6_network_failure_retry (o : Options) (ff : Nat → TransportResult)
    (itr : Nat → Nat → TransportResult) (m d : Nat)
    (hfail : ∀ k, ∃ e, ff k = .thrown e ∧ e.status = none) :
    (∃ e, ff 0 = .thrown e ∧
      FetchJs._retryOnNetworkError o ff itr m d false 0 = some ⟨1, [], .failure e⟩)
    ∧ (∀ fuel, FetchJs._retryOnNetworkError o ff itr m d true fuel = none)
    ∧ (∀ (ff2 : Nat → TransportResult) (fuel : Nat) (t : RetryTrace),
        FetchJs._retryOnNetworkError o ff2 itr m d true fuel = some t →
        t.delays = List.replicate (t.attempts - 1) 2000)
    ∧ (∀ (ff2 : Nat → TransportResult) (r : Res) (fuel : Nat),
        ff2 0 = .resp r → FetchJs._isRetryableError r o = false →
        FetchJs._retryOnNetworkError o ff2 itr m d true (fuel + 1) =
          some ⟨1, [], .success r⟩) := by
  have hbody : ∀ k, ∃ e, FetchJs.networkCycleBody o ff itr m d k = .err e ∧
      e.status = none := by
    intro k
    obtain ⟨e, hf, hsn⟩ := hfail k
    refine ⟨e, ?_, hsn⟩
    simp [FetchJs.networkCycleBody, hf, Res.statusTruthy_of_none hsn]
  refine ⟨?_, ?_, ?_, ?_⟩
  · obtain ⟨e, hb, hsn⟩ := hbody 0
    obtain ⟨e2, hf2, hsn2⟩ := hfail 0
    have he : e2 = e := by
      have : FetchJs.networkCycleBody o ff itr m d 0 = .err e2 := by
        simp [FetchJs.networkCycleBody, hf2, Res.statusTruthy_of_none hsn2]
      rw [this] at hb
      exact (BodyResult.err.injEq e2 e).mp hb
    refine ⟨e2, hf2, ?_⟩
    rw [FetchJs._retryOnNetworkError]
    simp only [Bool.false_eq_true, if_false]
    rw [Attempt.run]
    simp [hb, he]
  · intro fuel
    rw [FetchJs._retryOnNetworkError]
    simp only [if_true]
    exact Attempt.runFuel_all_err _ _ _
      (fun k => by obtain ⟨e, hb, _⟩ := hbody k; exact ⟨e, hb, rfl⟩) fuel 0
  · intro ff2 fuel t ht
    rw [FetchJs._retryOnNetworkError] at ht
    simp only [if_true] at ht
    exact Attempt.runFuel_const_delay _ _ 2000 fuel 0 t ht
  · intro ff2 r fuel hf2 hcls
    have hb0 : FetchJs.networkCycleBody o ff2 itr m d 0 = .ok r := by
      simp [FetchJs.networkCycleBody, hf2, hcls]
    rw [FetchJs._retryOnNetworkError]
    simp only [if_true]
    rw [Attempt.runFuel]
    simp [hb0]

/-- C6 witness: a transport that always throws a statusless network error; with
offlineRetry false the failure is surfaced after one cycle, with offlineRetry true
the loop is still running after 4 cycles of fuel. -/
theorem c6_network_failure_retry_witness :
    FetchJs._retryOnNetworkError {} (fun _ => .thrown networkError)
        (fun _ _ => .thrown networkError) 5 200 false 0 =
      some ⟨1, [], .failure networkError⟩
    ∧ FetchJs._retryOnNetworkError {} (fun _ => .thrown networkError)
        (fun _ _ => .thrown networkError) 5 200 true 4 = none := by
  have h := c6_network_failure_retry {} (fun _ => .thrown networkError)
    (fun _ _ => .thrown networkError) 5 200 (fun k => ⟨networkError, rfl, rfl⟩)
  exact ⟨by decide, h.2.1 4⟩

/-- C6 counterexample: when every cycle rejects with the statusless AbortError of a
cancelled call and offlineRetry is true, the loop is still retrying after 5 cycles
of fuel, although the claim says an abort stops the re-attempt cycles. -/
theorem c6_counterexample :
    FetchJs._retryOnNetworkError {} (fun _ => .thrown abortError)
      (fun _ _ => .thrown abortError) 5 200 true 5 = none := by decide

/-! ## Claim C7: aborted outcomes and the retry policy -/

/-- C7: a statusless rejection (the shape of an AbortError) stops the bounded
scheduler of src/fetch.js after one attempt only when no truthy retryable override
is set, in which case both handleError callbacks abort the loop; with the explicit
override retryable true both classifiers deem the abort error retryable and the
callbacks retry instead of stopping, and even the surfaced statusless failure is
then delegated to the network-failure loop rather than rejected to the caller. -/
theorem c7_abort_handling (err : Res) (o : Options) (hs : err.status = none) :
    (o.retryable.getD false = false →
      FetchJs.handleError err o = false
      ∧ Part001.handleError err o = false
      ∧ ∀ (tr : Nat → TransportResult) (m d : Nat), tr 0 = .thrown err →
          FetchJs._retryFetch tr o (m + 1) d = ⟨1, [], .failure err⟩)
    ∧ (o.retryable = some true →
      FetchJs.handleError err o = true ∧ Part001.handleError err o = true)
    ∧ FetchJs.defaultStep (.failure err) = .delegated err := by
  refine ⟨?_, ?_, ?_⟩
  · intro hr
    have hf : FetchJs.handleError err o = false := by
      simp [FetchJs.handleError, FetchJs._isRetryableError, hr]
    have hp : Part001.handleError err o = false := by
      rw [Part001.handleError, Part001._isRetryableError]
      rw [show err.statusIn2xx = false by simp [Res.statusIn2xx, hs]]
      cases ho : o.retryable with
      | none => simp [hs]
      | some b =>
        rw [ho] at hr
        simp only [Option.getD_some] at hr
        simp [hr]
    refine ⟨hf, hp, ?_⟩
    intro tr m d htr
    rw [FetchJs._retryFetch, Attempt.run]
    simp [FetchJs.retryFetchBody, htr, hf]
  · intro hr
    constructor
    · simp [FetchJs.handleError, FetchJs._isRetryableError, hr]
    · rw [Part001.handleError, Part001._isRetryableError]
      rw [show err.statusIn2xx = false by simp [Res.statusIn2xx, hs]]
      simp [hr]
  · rw [FetchJs.defaultStep]
    simp [Res.statusTruthy_of_none hs]

/-- C7 witness: the AbortError value with retryable true is classified retryable by
both handleError callbacks, and the statusless failure is delegated to the
network-failure loop. -/
theorem c7_abort_handling_witness :
    FetchJs.handleError abortError optsRetryTrue = true
    ∧ Part001.handleError abortError optsRetryTrue = true
    ∧ FetchJs.defaultStep (.failure abortError) = .delegated abortError := by
  have h := c7_abort_handling abortError optsRetryTrue rfl
  exact ⟨(h.2.1 rfl).1, (h.2.1 rfl).2, h.2.2⟩

/-! ## Claim C8: the upload progress speed -/

/-- C8: the progress listener of part_001 delivers speed 0 on every event (the
speed estimator is unimplemented, marked TODO in the source), while the estimator
described by the specification reports 0 on the first sample and 1000 bytes per
second once fed the samples (t=0,b=0) and (t=1000,b=1000). -/
theorem c8_progress_speed :
    (∀ (e : Part001.XhrEvent) (p : Part001.ProgressArg),
        Part001.progressListener e = some p → p.speed = 0)
    ∧ (specSpeedRecord [] ⟨0, 0⟩).2 = 0
    ∧ (specSpeedRecord (specSpeedRecord [] ⟨0, 0⟩).1 ⟨1000, 1000⟩).2 = 1000 := by
  refine ⟨?_, by decide, ?_⟩
  · intro e p hp
    rcases h : e.lengthComputable with _ | _ <;> simp [Part001.progressListener, h] at hp
    rw [← hp]
  · show (specSpeedRecord [⟨0, 0⟩] ⟨1000, 1000⟩).2 = 1000
    norm_num [specSpeedRecord]

/-- C8 witness: a concrete progress event (1000 of 1000000 bytes sent) is delivered
with speed 0. -/
theorem c8_progress_speed_witness :
    (Part001.progressListener ⟨true, 1000, 1000000⟩).map Part001.ProgressArg.speed =
      some 0 := by
  rcases hp : Part001.progressListener ⟨true, 1000, 1000000⟩ with _ | p
  · exact absurd hp (by simp [Part001.progressListener])
  · exact congrArg some (c8_progress_speed.1 ⟨true, 1000, 1000000⟩ p hp)

/-! ## Claim C9: the options object and its copies -/

/-- C9 counterexample: the fetch call of _retryOnNetworkError in src/fetch.js
receives the original options with the retryable key still present, and with a
redux store configured the default export of src/fetch.js adds requestId to the
very options object the caller passed in. -/
theorem c9_counterexample :
    (FetchJs.retryOnNetworkFetchArg optsRetryTrue).retryable = some true
    ∧ (FetchJs.optionsUsed true "a1b2" {}).requestId = some "a1b2"
    ∧ ({} : Options).requestId = none := by decide

/-- C9 (amended): without a configured store the src/fetch.js default export leaves
the options untouched, and _retryFetch fetches with a copy lacking retryable in
both implementations, as does _retryOnNetworkError of part_001; but the fetch call
of _retryOnNetworkError in src/fetch.js receives the original options unstripped,
and with a store configured the src/fetch.js default export mutates the caller
options, setting requestId (and requestType). -/
theorem c9_options_copies (o : Options) (g : String) :
    FetchJs.optionsUsed false g o = o
    ∧ (FetchJs.retryFetchFetchArg o).retryable = none
    ∧ FetchJs.retryOnNetworkFetchArg o = o
    ∧ (Part001.retryFetchFetchArg o).retryable = none
    ∧ (Part001.retryOnNetworkFetchArg o).retryable = none
    ∧ (FetchJs.optionsUsed true g o).requestId = some g := by
  refine ⟨rfl, rfl, rfl, ?_, ?_, rfl⟩
  · rw [Part001.retryFetchFetchArg]
    split <;> rfl
  · rw [Part001.retryOnNetworkFetchArg]
    split <;> rfl

/-! ## Claim C10: the request tracker ledger -/

/-- C10: the reducer maps a REQUEST action for an id of class write (read) to an
entry id to now in pendingWrites (pendingReads), REQUEST_SUCCEED and REQUEST_FAILED
erase that entry, and both kinds of action leave every other id in both ledgers
unchanged, for any class string. -/
theorem c10_tracker (s : FetchRequestsState) (id id2 cls : String) (now : Nat) :
    Selectors.pendingWrites (Reducer.reducer s (Actions.request id "write") now) id = some now
    ∧ (Reducer.reducer s (Actions.request id "write") now).pendingReads = s.pendingReads
    ∧ Selectors.pendingReads (Reducer.reducer s (Actions.request id "read") now) id = some now
    ∧ (Reducer.reducer s (Actions.request id "read") now).pendingWrites = s.pendingWrites
    ∧ Selectors.pendingWrites
        (Reducer.reducer s (Actions.requestSucceed id "write") now) id = none
    ∧ Selectors.pendingWrites
        (Reducer.reducer s (Actions.requestFailed id "write") now) id = none
    ∧ Selectors.pendingReads
        (Reducer.reducer s (Actions.requestSucceed id "read") now) id = none
    ∧ Selectors.pendingReads
        (Reducer.reducer s (Actions.requestFailed id "read") now) id = none
    ∧ (id2 ≠ id →
        (Reducer.reducer s (Actions.request id cls) now).pendingWrites id2 =
          s.pendingWrites id2
        ∧ (Reducer.reducer s (Actions.request id cls) now).pendingReads id2 =
          s.pendingReads id2
        ∧ (Reducer.reducer s (Actions.requestSucceed id cls) now).pendingWrites id2 =
          s.pendingWrites id2
        ∧ (Reducer.reducer s (Actions.requestSucceed id cls) now).pendingReads id2 =
          s.pendingReads id2
        ∧ (Reducer.reducer s (Actions.requestFailed id cls) now).pendingWrites id2 =
          s.pendingWrites id2
        ∧ (Reducer.reducer s (Actions.requestFailed id cls) now).pendingReads id2 =
          s.pendingReads id2) := by
  refine ⟨?_, ?_, ?_, ?_, ?_, ?_, ?_, ?_, ?_⟩
  · simp [Reducer.reducer, Actions.request, Actions.REQUEST, Selectors.pendingWrites,
      mapReplace]
  · simp [Reducer.reducer, Actions.request, Actions.REQUEST]
  · simp [Reducer.reducer, Actions.request, Actions.REQUEST, Selectors.pendingReads,
      mapReplace]
  · simp [Reducer.reducer, Actions.request, Actions.REQUEST]
  · simp [Reducer.reducer, Actions.requestSucceed, Actions.REQUEST, Actions.REQUEST_SUCCEED,
      Actions.REQUEST_FAILED, Selectors.pendingWrites, mapReplace]
  · simp [Reducer.reducer, Actions.requestFailed, Actions.REQUEST, Actions.REQUEST_SUCCEED,
      Actions.REQUEST_FAILED, Selectors.pendingWrites, mapReplace]
  · simp [Reducer.reducer, Actions.requestSucceed, Actions.REQUEST, Actions.REQUEST_SUCCEED,
      Actions.REQUEST_FAILED, Selectors.pendingReads, mapReplace]
  · simp [Reducer.reducer, Actions.requestFailed, Actions.REQUEST, Actions.REQUEST_SUCCEED,
      Actions.REQUEST_FAILED, Selectors.pendingReads, mapReplace]
  · intro hne
    by_cases hc : cls = "read" <;>
      simp [Reducer.reducer, Actions.request, Actions.requestSucceed, Actions.requestFailed,
        Actions.REQUEST, Actions.REQUEST_SUCCEED, Actions.REQUEST_FAILED, hc,
        mapReplace, hne]

/-- C10 witness: a concrete record-start followed by a record-end on the empty
state, with an unrelated id left absent throughout. -/
theorem c10_tracker_witness :
    Selectors.pendingWrites
      (Reducer.reducer emptyState (Actions.request "a" "write") 7) "a" = some 7
    ∧ Selectors.pendingWrites
        (Reducer.reducer (Reducer.reducer emptyState (Actions.request "a" "write") 7)
          (Actions.requestSucceed "a" "write") 9) "a" = none
    ∧ (Reducer.reducer emptyState (Actions.request "a" "write") 7).pendingWrites "b" =
      none := by
  have h1 := c10_tracker emptyState "a" "b" "write" 7
  have h2 := c10_tracker (Reducer.reducer emptyState (Actions.request "a" "write") 7)
    "a" "b" "write" 9
  refine ⟨h1.1, h2.2.2.2.2.1, ?_⟩
  rw [(h1.2.2.2.2.2.2.2.2 (by decide)).1]
  rfl
